import Mathlib

/-!
Shallow embedding of the acm-client (diamond client) core:
`src/lib/diamond_env.js`, `src/lib/server_list_mgr.js`, `src/lib/snapshot.js`.

JavaScript values that may be `null`/`undefined` are modelled as `Option String`;
JS truthiness of a string value (the empty string, `null` and `undefined` are falsy) is
`jsTruthy`.  Effects (snapshot writes/deletes, emitted events, emitted config
contents) are modelled as explicit output lists.  The cryptographic helpers
(`crypto.createHmac`, `utils.getMD5String`) and JSON (de)serialisation are
external to the modelled control flow and are taken as function parameters.
-/

namespace Acm

/-- Modelled from the spec: `Constants.WORD_SEPARATOR` (`const.js` is not in
`src/`): the protocol framing byte `\u0002`. -/
def WORD_SEPARATOR : String := "\u0002"

/-- Modelled from the spec: `Constants.LINE_SEPARATOR` (`const.js` is not in
`src/`): the protocol framing byte `\u0001`. -/
def LINE_SEPARATOR : String := "\u0001"

/-- JS truthiness of a nullable string: `null`, `undefined` and the empty string are falsy. -/
def jsTruthy : Option String → Bool
  | none => false
  | some s => s ≠ ""

/-- JS string coercion of a nullable string (`String(undefined) = "undefined"`,
and `null` only arises here for absent fields, which JS renders `undefined`). -/
def jsStr : Option String → String
  | none => "undefined"
  | some s => s

/-- Value coercion performed by `Snapshot#save` (`snapshot.js` line 42): any
falsy value (null, undefined, empty string) is coerced to the empty string. -/
def saveCoerce (v : Option String) : String :=
  if jsTruthy v then v.getD "" else ""

/-- Coercion applied by the array join to one element: `null` and `undefined`
become the empty string. -/
def joinElem : Option String → String
  | none => ""
  | some s => s

/-! ## Server list manager (`server_list_mgr.js`) -/

/-- One entry of `_serverListCache`: `{ hosts: [...], index }`
(`server_list_mgr.js` line 43). -/
structure ServerData where
  hosts : List String
  index : Nat
deriving Repr, DecidableEq

/-- Model of `getOne(unit)` (`server_list_mgr.js` lines 110–126), restricted to the case
where the pool for the unit is already in the cache: returns the chosen host
(or `null` for an empty list) and the updated pool. -/
def getOne (p : ServerData) : Option String × ServerData :=
  if p.hosts.length = 0 then
    (none, p)
  else
    let choosed := p.hosts.getD p.index ""
    let index := p.index + 1
    let index := if index ≥ p.hosts.length then 0 else index
    (some choosed, { p with index := index })

/-- Iterate `getOne` `n` times, collecting the returned hosts in order. -/
def getOneRun (p : ServerData) : Nat → List (Option String) × ServerData
  | 0 => ([], p)
  | n + 1 =>
    let (o, p') := getOne p
    let (os, p'') := getOneRun p' n
    (o :: os, p'')

theorem getOneRun_add (p : ServerData) (a b : Nat) :
    getOneRun p (a + b) =
      ((getOneRun p a).1 ++ (getOneRun (getOneRun p a).2 b).1,
        (getOneRun (getOneRun p a).2 b).2) := by
  induction a generalizing p with
  | zero => simp [getOneRun]
  | succ a ih =>
    have : a + 1 + b = (a + b) + 1 := by omega
    rw [this]
    simp only [getOneRun, ih]
    rfl

/-- One `getOne` step from a valid index: the chosen host is `hosts[index]` and
the index advances by one modulo the length. -/
theorem getOne_step (p : ServerData) (h : p.index < p.hosts.length) :
    getOne p = (some (p.hosts.getD p.index ""),
      { p with index := (p.index + 1) % p.hosts.length }) := by
  have hne : p.hosts.length ≠ 0 := by omega
  simp only [getOne, hne, if_false]
  congr 1
  by_cases hwrap : p.index + 1 ≥ p.hosts.length
  · have : p.index + 1 = p.hosts.length := by omega
    simp [hwrap, this, Nat.mod_self]
  · have : p.index + 1 < p.hosts.length := by omega
    simp [hwrap, Nat.mod_eq_of_lt this]

/-- A partial run that stays inside one pass over the list: starting at index
`i < n` and taking `k ≤ n - i` steps yields the slice `hosts[i..i+k)` and
leaves the index at `i + k` (wrapped to `0` when the pass completes). -/
theorem getOneRun_within (l : List String) (i k : Nat)
    (hi : i < l.length) (hk : i + k ≤ l.length) :
    getOneRun ⟨l, i⟩ k =
      (((l.drop i).take k).map some,
        ⟨l, if i + k = l.length then 0 else i + k⟩) := by
  induction k generalizing i with
  | zero =>
    have h0 : i + 0 ≠ l.length := by omega
    rw [if_neg h0]
    simp [getOneRun]
  | succ k ih =>
    have hne : l.length ≠ 0 := by omega
    have hstep : getOne ⟨l, i⟩ = (some (l.getD i ""),
        ⟨l, if i + 1 ≥ l.length then 0 else i + 1⟩) := by
      simp [getOne, hne]
    by_cases hend : i + 1 = l.length
    · have hk0 : k = 0 := by omega
      subst hk0
      have hwrap : i + 1 ≥ l.length := by omega
      have hdrop : (l.drop i).take 1 = [l.getD i ""] := by
        have : l.drop i = l.getD i "" :: l.drop (i + 1) := by
          rw [List.getD_eq_getElem l "" hi]
          exact (List.drop_eq_getElem_cons hi)
        rw [this]
        simp
      simp only [getOneRun, hstep]
      simp [hdrop, hend, hwrap]
    · have hlt : i + 1 < l.length := by omega
      have hwrap : ¬(i + 1 ≥ l.length) := by omega
      have ihh := ih (i + 1) hlt (by omega)
      simp only [getOneRun, hstep, hwrap, if_false, ihh]
      have hdrop : l.drop i = l.getD i "" :: l.drop (i + 1) := by
        rw [List.getD_eq_getElem l "" hi]
        exact (List.drop_eq_getElem_cons hi)
      have harith : i + 1 + k = i + (k + 1) := by omega
      rw [hdrop, harith]
      simp

/-- C4: for a pool of `n ≥ 1` hosts and any starting index `i < n`, `n` calls
of `getOne` return each host exactly once, in cyclic order starting at `i`
(the rotation `drop i ++ take i` of the host list, which is a permutation of
it), the pool returns to index `i`, and every single call advances the index
by one modulo `n`. -/
theorem getOne_round_robin (l : List String) (i : Nat)
    (hl : 1 ≤ l.length) (hi : i < l.length) :
    (getOneRun ⟨l, i⟩ l.length).1 = (l.drop i ++ l.take i).map some ∧
    (getOneRun ⟨l, i⟩ l.length).2 = ⟨l, i⟩ ∧
    (l.drop i ++ l.take i).Perm l ∧
    (∀ p : ServerData, p.hosts = l → p.index < l.length →
      (getOne p).2.index = (p.index + 1) % l.length) := by
  have hsplit : l.length = (l.length - i) + i := by omega
  have h1 := getOneRun_within l i (l.length - i) hi (by omega)
  have hfull : i + (l.length - i) = l.length := by omega
  rw [if_pos hfull] at h1
  have htake1 : (l.drop i).take (l.length - i) = l.drop i := by
    apply List.take_of_length_le
    simp
  rw [htake1] at h1
  have h2 := getOneRun_within l 0 i (by omega) (by omega)
  have hzi : ¬(0 + i = l.length) := by omega
  rw [if_neg hzi] at h2
  have htake2 : (l.drop 0).take i = l.take i := by simp
  rw [htake2] at h2
  have hadd := getOneRun_add ⟨l, i⟩ (l.length - i) i
  rw [h1, h2] at hadd
  refine ⟨?_, ?_, ?_, ?_⟩
  · rw [hsplit, hadd]
    simp
  · rw [hsplit, hadd]
    simp
  · exact List.perm_append_comm.trans (by rw [List.take_append_drop])
  · intro p hp hip
    rw [getOne_step p (by rw [hp]; exact hip)]
    simp [hp]

theorem getOne_round_robin_witness :
    (getOneRun ⟨["h1", "h2", "h3"], 1⟩ (["h1", "h2", "h3"] : List String).length).1
      = ((["h1", "h2", "h3"] : List String).drop 1
          ++ (["h1", "h2", "h3"] : List String).take 1).map some :=
  (getOne_round_robin ["h1", "h2", "h3"] 1 (by decide) (by decide)).1

/-! ## Signed request layer (`diamond_env.js` `_request`, lines 176–254) -/

/-- Modelled from the spec: `Constants.VERSION` (`const.js` is not in `src/`)
is a fixed version identifier advertised in every request; its value is not
specified and no claim depends on it. -/
def clientVersion : String := "VERSION"

/-- Modelled from the spec: `Constants.HTTP_OK` (`const.js` is not in `src/`). -/
def HTTP_OK : Nat := 200

/-- Modelled from the spec: `Constants.HTTP_NOT_FOUND`. -/
def HTTP_NOT_FOUND : Nat := 404

/-- Modelled from the spec: `Constants.HTTP_CONFLICT`. -/
def HTTP_CONFLICT : Nat := 409

/-- Request form data; only the fields that matter for signing and error
tagging are modelled. Absent fields are `none`. -/
structure ReqData where
  dataId : Option String := none
  group : Option String := none
  tenant : Option String := none
deriving Repr, DecidableEq

/-- A JS error value together with the tags the client attaches to it. -/
structure JsError where
  name : String
  url : Option String := none
  data : Option ReqData := none
  headers : Option (List (String × String)) := none
  body : Option String := none
deriving Repr, DecidableEq

/-- An HTTP response as delivered by the injected `httpclient`. -/
structure HttpRes where
  status : Nat
  data : String
deriving Repr, DecidableEq

/-- Set a key in an association map, JS-object style: overwrite in place if the
key is present, append otherwise. -/
def setAssoc {α : Type} (m : List (String × α)) (k : String) (v : α) :
    List (String × α) :=
  match m with
  | [] => [(k, v)]
  | (k', v') :: rest =>
    if k' = k then (k, v) :: rest else (k', v') :: setAssoc rest k v

theorem lookup_setAssoc {α : Type} (m : List (String × α)) (k : String) (v : α) :
    (setAssoc m k v).lookup k = some v := by
  induction m with
  | nil => simp [setAssoc, List.lookup]
  | cons hd tl ih =>
    obtain ⟨k', v'⟩ := hd
    by_cases h : k' = k
    · subst h
      simp [setAssoc, List.lookup]
    · have hne : ¬(k = k') := fun hh => h hh.symm
      have hbeq : (k == k') = false := beq_false_of_ne hne
      simp [setAssoc, h, List.lookup, hbeq, ih]

theorem lookup_setAssoc_ne {α : Type} (m : List (String × α)) (k k' : String)
    (v : α) (hk : k ≠ k') : (setAssoc m k' v).lookup k = m.lookup k := by
  induction m with
  | nil =>
    have hbeq : (k == k') = false := beq_false_of_ne hk
    simp [setAssoc, List.lookup, hbeq]
  | cons hd tl ih =>
    obtain ⟨k0, v0⟩ := hd
    by_cases h : k0 = k'
    · subst h
      have hbeq : (k == k0) = false := beq_false_of_ne hk
      simp [setAssoc, List.lookup, hbeq]
    · simp only [setAssoc]
      rw [if_neg h]
      by_cases h0 : k = k0
      · subst h0
        simp [List.lookup]
      · have hbeq : (k == k0) = false := beq_false_of_ne h0
        simp [List.lookup, hbeq, ih]

instance instDecidableEqExcept {ε α : Type} [DecidableEq ε] [DecidableEq α] :
    DecidableEq (Except ε α) := fun x y =>
  match x, y with
  | .ok a, .ok b =>
    if h : a = b then .isTrue (by rw [h])
    else .isFalse (by intro hh; injection hh; exact h ‹_›)
  | .error a, .error b =>
    if h : a = b then .isTrue (by rw [h])
    else .isFalse (by intro hh; injection hh; exact h ‹_›)
  | .ok _, .error _ => .isFalse (fun hh => Except.noConfusion hh)
  | .error _, .ok _ => .isFalse (fun hh => Except.noConfusion hh)

/-- The `signStr` computation (`diamond_env.js` lines 193–198): start from
`data.tenant`, overwrite with `tenant + "+" + group` when both are truthy,
else with `group` when it is truthy. -/
def signStr (data : ReqData) : Option String :=
  if jsTruthy data.group && jsTruthy data.tenant then
    some (jsStr data.tenant ++ "+" ++ jsStr data.group)
  else if jsTruthy data.group then data.group
  else data.tenant

/-- The request URL (`diamond_env.js` lines 186–190): hard-coded port 8080 for
plain HTTP, 443 for TLS. -/
def requestUrl (ssl : Bool) (host path : String) : String :=
  if ssl then "https://" ++ host ++ ":443/diamond-server" ++ path
  else "http://" ++ host ++ ":8080/diamond-server" ++ path

/-- The headers assigned onto `options.headers` (`diamond_env.js` lines
204–211); `hmac k m` stands for `base64(HMAC-SHA1(k, m))`. -/
def requestHeaders (hmac : String → String → String)
    (secretKey accessKey ts : String) (data : ReqData)
    (extra : List (String × String)) : List (String × String) :=
  let signature := hmac secretKey (jsStr (signStr data) ++ "+" ++ ts)
  let hs := setAssoc extra "Client-Version" clientVersion
  let hs := setAssoc hs "Content-Type"
    "application/x-www-form-urlencoded; charset=UTF-8"
  let hs := setAssoc hs "Spas-AccessKey" accessKey
  let hs := setAssoc hs "timeStamp" ts
  let hs := setAssoc hs "exConfigInfo" "true"
  setAssoc hs "Spas-Signature" signature

/-- The outcome of one `_request` call: the returned value or thrown error,
the headers that were sent, and `this._currentServer` afterwards. -/
structure ReqOutcome where
  result : Except JsError (Option String)
  headers : List (String × String)
  currentServer : Option String
deriving Repr, DecidableEq

/-- The `catch` block of `_request` (`diamond_env.js` lines 247–253): tag the
error with `url`, `data` and `headers`, re-select the current server via
`serverMgr.getOne` (`reselect` is what it returns), and rethrow.  When
re-selection yields no host, `_updateCurrentServer` itself throws
`DiamondServerUnavailableError`, which replaces the original error. -/
def requestCatch (url method : String) (data : ReqData)
    (headers : List (String × String)) (reselect : Option String)
    (e : JsError) : ReqOutcome :=
  let e := { e with
    url := some (method ++ " " ++ url)
    data := some data
    headers := some headers }
  match reselect with
  | some h => { result := .error e, headers := headers, currentServer := some h }
  | none =>
    { result := .error { name := "DiamondServerUnavailableError" }
      headers := headers
      currentServer := none }

/-- Model of `_request` (`diamond_env.js` lines 176–254), given the transport outcome
`resp` and the host `reselect` that `serverMgr.getOne` would return on
re-selection.  `200 ↦ body`, `404 ↦ null`, `409 ↦ DiamondServerConflictError`,
other statuses `↦ DiamondServerResponseError`; conflict, response and
transport errors all pass through the `catch` block. -/
def requestModel (hmac : String → String → String)
    (secretKey accessKey ts : String) (ssl : Bool) (host method path : String)
    (data : ReqData) (extra : List (String × String))
    (resp : Except JsError HttpRes) (reselect : Option String) : ReqOutcome :=
  let url := requestUrl ssl host path
  let headers := requestHeaders hmac secretKey accessKey ts data extra
  match resp with
  | .error e => requestCatch url method data headers reselect e
  | .ok res =>
    if res.status = HTTP_OK then
      { result := .ok (some res.data), headers := headers,
        currentServer := some host }
    else if res.status = HTTP_NOT_FOUND then
      { result := .ok none, headers := headers, currentServer := some host }
    else if res.status = HTTP_CONFLICT then
      requestCatch url method data headers reselect
        { name := "DiamondServerConflictError" }
    else
      requestCatch url method data headers reselect
        { name := "DiamondServerResponseError", body := some res.data }

/-- The name of the error carried by a request result, if it failed. -/
def errName : Except JsError (Option String) → Option String
  | .error e => some e.name
  | .ok _ => none

theorem requestModel_headers (hmac : String → String → String)
    (secretKey accessKey ts : String) (ssl : Bool) (host method path : String)
    (data : ReqData) (extra : List (String × String))
    (resp : Except JsError HttpRes) (reselect : Option String) :
    (requestModel hmac secretKey accessKey ts ssl host method path data extra
        resp reselect).headers
      = requestHeaders hmac secretKey accessKey ts data extra := by
  cases resp with
  | error e => cases reselect <;> rfl
  | ok res =>
    simp only [requestModel, requestCatch]
    split_ifs <;> cases reselect <;> rfl

/-- C5: for every outbound signed request, the `Spas-Signature` header is the
HMAC (under `secretKey`) of `signBody + "+" + ts`, where `ts` is exactly the
value of the `timeStamp` header and `signBody` is `tenant + "+" + group` when
both are truthy, `group` when only the group is truthy, and (the JS
stringification of) `tenant` otherwise. -/
theorem spas_signature_rule (hmac : String → String → String)
    (secretKey accessKey ts : String) (ssl : Bool) (host method path : String)
    (data : ReqData) (extra : List (String × String))
    (resp : Except JsError HttpRes) (reselect : Option String) :
    (jsTruthy data.tenant = true → jsTruthy data.group = true →
      (requestModel hmac secretKey accessKey ts ssl host method path data extra
          resp reselect).headers.lookup "Spas-Signature"
        = some (hmac secretKey
            (jsStr data.tenant ++ "+" ++ jsStr data.group ++ "+" ++ ts))) ∧
    (jsTruthy data.tenant = false → jsTruthy data.group = true →
      (requestModel hmac secretKey accessKey ts ssl host method path data extra
          resp reselect).headers.lookup "Spas-Signature"
        = some (hmac secretKey (jsStr data.group ++ "+" ++ ts))) ∧
    (jsTruthy data.group = false →
      (requestModel hmac secretKey accessKey ts ssl host method path data extra
          resp reselect).headers.lookup "Spas-Signature"
        = some (hmac secretKey (jsStr data.tenant ++ "+" ++ ts))) ∧
    (requestModel hmac secretKey accessKey ts ssl host method path data extra
        resp reselect).headers.lookup "timeStamp" = some ts := by
  refine ⟨fun h1 h2 => ?_, fun h1 h2 => ?_, fun h1 => ?_, ?_⟩ <;>
      rw [requestModel_headers]
  · simp only [requestHeaders, lookup_setAssoc]
    simp [signStr, h1, h2, jsStr]
  · simp only [requestHeaders, lookup_setAssoc]
    simp [signStr, h1, h2, jsStr]
  · simp only [requestHeaders, lookup_setAssoc]
    simp [signStr, h1, jsStr]
  · simp only [requestHeaders]
    rw [lookup_setAssoc_ne _ _ _ _ (by decide),
      lookup_setAssoc_ne _ _ _ _ (by decide), lookup_setAssoc]

theorem spas_signature_rule_witness :
    (requestModel (fun k m => k ++ "|" ++ m) "sk" "ak" "1" true "h" "GET"
        "/config.co" { dataId := some "d", group := some "g", tenant := some "t" }
        [] (Except.ok ⟨200, "body"⟩) (some "h")).headers.lookup "Spas-Signature"
      = some ((fun k m => k ++ "|" ++ m) "sk"
          (jsStr (some "t") ++ "+" ++ jsStr (some "g") ++ "+" ++ "1")) :=
  (spas_signature_rule (fun k m => k ++ "|" ++ m) "sk" "ak" "1" true "h" "GET"
      "/config.co" { dataId := some "d", group := some "g", tenant := some "t" }
      [] (Except.ok ⟨200, "body"⟩) (some "h")).1 (by decide) (by decide)

/-- C8 (amended): when the response status is none of 200/404/409 and server
re-selection yields a host, `_request` fails with `DiamondServerResponseError`
tagged with `url`, `data` and `headers` and the current server is re-selected;
a transport error takes the same tagging and re-selection path but is
re-thrown under its ORIGINAL name, not renamed to
`DiamondServerResponseError`. -/
theorem request_failure_reselect (hmac : String → String → String)
    (secretKey accessKey ts : String) (ssl : Bool) (host method path : String)
    (data : ReqData) (extra : List (String × String)) (h : String) :
    (∀ res : HttpRes, res.status ≠ HTTP_OK → res.status ≠ HTTP_NOT_FOUND →
      res.status ≠ HTTP_CONFLICT →
      requestModel hmac secretKey accessKey ts ssl host method path data extra
          (Except.ok res) (some h)
        = { result := .error
              { name := "DiamondServerResponseError"
                url := some (method ++ " " ++ requestUrl ssl host path)
                data := some data
                headers := some (requestHeaders hmac secretKey accessKey ts data extra)
                body := some res.data }
            headers := requestHeaders hmac secretKey accessKey ts data extra
            currentServer := some h }) ∧
    (∀ e0 : JsError,
      requestModel hmac secretKey accessKey ts ssl host method path data extra
          (Except.error e0) (some h)
        = { result := .error
              { e0 with
                url := some (method ++ " " ++ requestUrl ssl host path)
                data := some data
                headers := some (requestHeaders hmac secretKey accessKey ts data extra) }
            headers := requestHeaders hmac secretKey accessKey ts data extra
            currentServer := some h }) := by
  constructor
  · intro res h1 h2 h3
    simp [requestModel, requestCatch, h1, h2, h3]
  · intro e0
    simp [requestModel, requestCatch]

theorem request_failure_reselect_witness :
    requestModel (fun k m => k ++ "|" ++ m) "sk" "ak" "1" true "hostA" "GET"
        "/config.co" { tenant := some "t" } [] (Except.ok ⟨500, "boom"⟩)
        (some "hostB")
      = { result := .error
            { name := "DiamondServerResponseError"
              url := some ("GET" ++ " " ++ requestUrl true "hostA" "/config.co")
              data := some { tenant := some "t" }
              headers := some (requestHeaders (fun k m => k ++ "|" ++ m) "sk" "ak"
                "1" { tenant := some "t" } [])
              body := some "boom" }
          headers := requestHeaders (fun k m => k ++ "|" ++ m) "sk" "ak" "1"
            { tenant := some "t" } []
          currentServer := some "hostB" } :=
  (request_failure_reselect (fun k m => k ++ "|" ++ m) "sk" "ak" "1" true "hostA"
      "GET" "/config.co" { tenant := some "t" } [] "hostB").1
    ⟨500, "boom"⟩ (by decide) (by decide) (by decide)

/-- C8 (counterexample to the claim as stated): a transport error is re-thrown
under its original name (`ConnectionTimedOutError` here), not as
`DiamondServerResponseError`. -/
theorem request_transport_error_keeps_name_cex :
    errName (requestModel (fun _ m => m) "sk" "ak" "1" true "host" "GET"
        "/config.co" { tenant := some "t" } []
        (Except.error { name := "ConnectionTimedOutError" }) (some "host2")).result
      = some "ConnectionTimedOutError"
    ∧ (some "ConnectionTimedOutError" : Option String)
        ≠ some "DiamondServerResponseError" := by
  constructor
  · rfl
  · decide

/-! ## `getConfig` (`diamond_env.js` lines 392–414) and the snapshot store -/

/-- Model of `_getSnapshotKey(dataId, group)` (`diamond_env.js` lines 381–384):
`config/<unit>/<tenant || namespace || "default_tenant">/<group>/<dataId>`. -/
def getSnapshotKey (unit : String) (nsOpt : Option String)
    (dataId group : String) : String :=
  let tenant := if jsTruthy nsOpt then jsStr nsOpt else "default_tenant"
  "config/" ++ unit ++ "/" ++ tenant ++ "/" ++ group ++ "/" ++ dataId

/-- The observable outcome of one `getConfig` call: returned value or thrown
error, snapshot saves performed (key, written value after the save coercion
of `Snapshot#save`), and errors reported on the event channel. -/
structure GetOutcome where
  result : Except JsError (Option String)
  saves : List (String × String)
  events : List JsError
deriving Repr, DecidableEq

/-- Model of `getConfig` (`diamond_env.js` lines 392–414) given the outcome `reqResult`
of its `_request` call and the value `cache` that `snapshot.get(key)` would
return: on request success save the body (coerced) under `key` and return it;
on request failure return the cache when it is truthy (reporting the original
error as an event), else rethrow. -/
def getConfig (key : String) (reqResult : Except JsError (Option String))
    (cache : Option String) : GetOutcome :=
  match reqResult with
  | .ok content =>
    { result := .ok content, saves := [(key, saveCoerce content)], events := [] }
  | .error e =>
    if jsTruthy cache then
      { result := .ok (some (cache.getD "")), saves := [], events := [e] }
    else
      { result := .error e, saves := [], events := [] }

/-- Composition of `getConfig` with `_request` on path `/config.co` and data
`{dataId, group, tenant: namespace}` (`diamond_env.js` lines 396–403). -/
def getConfigRun (hmac : String → String → String)
    (secretKey accessKey ts : String) (ssl : Bool) (host unit : String)
    (nsOpt : Option String) (dataId group : String)
    (resp : Except JsError HttpRes) (reselect : Option String)
    (cache : Option String) : GetOutcome :=
  let key := getSnapshotKey unit nsOpt dataId group
  let ro := requestModel hmac secretKey accessKey ts ssl host "GET" "/config.co"
    { dataId := some dataId, group := some group, tenant := nsOpt } [] resp reselect
  getConfig key ro.result cache

/-- C2: `getConfig` propagates an error only when the request failed AND the
snapshot produced no (truthy) value; on request success it saves the body
under the snapshot key and returns it; on request failure with a truthy
cached value it reports the original error as an event and returns the cached
value. -/
theorem getConfig_error_handling (key : String)
    (reqResult : Except JsError (Option String)) (cache : Option String) :
    (∀ c, reqResult = .ok c →
      getConfig key reqResult cache
        = { result := .ok c, saves := [(key, saveCoerce c)], events := [] }) ∧
    (∀ e, reqResult = .error e → jsTruthy cache = true →
      getConfig key reqResult cache
        = { result := .ok (some (cache.getD "")), saves := [], events := [e] }) ∧
    (∀ e, reqResult = .error e → jsTruthy cache = false →
      getConfig key reqResult cache
        = { result := .error e, saves := [], events := [] }) ∧
    (∀ e', (getConfig key reqResult cache).result = .error e' →
      reqResult = .error e' ∧ jsTruthy cache = false) := by
  refine ⟨?_, ?_, ?_, ?_⟩
  · intro c hc
    subst hc
    rfl
  · intro e he ht
    subst he
    simp [getConfig, ht]
  · intro e he ht
    subst he
    simp [getConfig, ht]
  · intro e' he'
    cases reqResult with
    | ok c => simp [getConfig] at he'
    | error e =>
      by_cases ht : jsTruthy cache = true
      · simp [getConfig, ht] at he'
      · simp only [Bool.not_eq_true] at ht
        simp [getConfig, ht] at he'
        exact ⟨by rw [he'], ht⟩

theorem getConfig_error_handling_witness :
    getConfig "k" (.error { name := "E" }) (some "cached")
      = { result := .ok (some "cached"), saves := [],
          events := [{ name := "E" }] } :=
  (getConfig_error_handling "k" (.error { name := "E" }) (some "cached")).2.1
    { name := "E" } rfl (by decide)

/-- C3 (counterexample to the claim as stated): on a 404 response `getConfig`
does return `null` without an error, but it does NOT leave the snapshot store
untouched: it saves the coerced empty string under the snapshot key. -/
theorem getConfig_404_writes_empty_cex :
    (getConfigRun (fun _ m => m) "sk" "ak" "1" true "host" "unit" none "d" "g"
        (Except.ok ⟨404, ""⟩) (some "host") none).result = .ok none
    ∧ (getConfigRun (fun _ m => m) "sk" "ak" "1" true "host" "unit" none "d" "g"
        (Except.ok ⟨404, ""⟩) (some "host") none).saves
      = [("config/unit/default_tenant/g/d", "")]
    ∧ ([("config/unit/default_tenant/g/d", "")] : List (String × String)) ≠ [] := by
  refine ⟨rfl, rfl, by decide⟩

/-- C3 (amended): on a 404 response `getConfig` returns `null` without raising
an error and reports no error event, but it performs one snapshot save for the
key, of the empty string (the `null` body coerced by `Snapshot#save`). -/
theorem getConfig_404 (hmac : String → String → String)
    (secretKey accessKey ts : String) (ssl : Bool) (host unit : String)
    (nsOpt : Option String) (dataId group : String) (body : String)
    (reselect cache : Option String) :
    getConfigRun hmac secretKey accessKey ts ssl host unit nsOpt dataId group
        (Except.ok ⟨404, body⟩) reselect cache
      = { result := .ok none
          saves := [(getSnapshotKey unit nsOpt dataId group, "")]
          events := [] } := by
  simp [getConfigRun, requestModel, getConfig, HTTP_OK, HTTP_NOT_FOUND,
    saveCoerce, jsTruthy]

theorem getConfig_404_witness :
    getConfigRun (fun _ m => m) "sk" "ak" "1" true "host" "unit" none "d" "g"
        (Except.ok ⟨404, ""⟩) (some "host") none
      = { result := .ok none
          saves := [(getSnapshotKey "unit" none "d" "g", "")]
          events := [] } :=
  getConfig_404 (fun _ m => m) "sk" "ak" "1" true "host" "unit" none "d" "g" ""
    (some "host") none

/-- C10: `Snapshot#save` coerces every falsy value (`null` or the empty
string) to the empty string before writing, `getConfig` treats an
empty-string snapshot read as "no cached value", and consequently after a
`getConfig` stored a `null`/empty body (written as `""`), a later `getConfig`
for the same key whose request fails propagates the request error instead of
returning the cached empty content. -/
theorem snapshot_empty_coercion (key : String) :
    saveCoerce none = "" ∧ saveCoerce (some "") = "" ∧
    (∀ v, jsTruthy v = false → saveCoerce v = "") ∧
    (∀ e : JsError, getConfig key (.error e) (some "")
      = { result := .error e, saves := [], events := [] }) := by
  refine ⟨rfl, rfl, ?_, ?_⟩
  · intro v hv
    simp [saveCoerce, hv]
  · intro e
    simp [getConfig, jsTruthy]

theorem snapshot_empty_coercion_witness :
    getConfig "config/unit/default_tenant/g/d"
        (.error { name := "ConnectFail" }) (some "")
      = { result := .error { name := "ConnectFail" }, saves := [], events := [] } :=
  (snapshot_empty_coercion "config/unit/default_tenant/g/d").2.2.2
    { name := "ConnectFail" }

/-! ## Subscription engine (`diamond_env.js` `subscribe` / `_syncConfigs` /
`unSubscribe` / `_checkServerConfigInfo`) -/

/-- One entry of `this._subscriptions` (`diamond_env.js` lines 116–121). -/
structure SubItem where
  dataId : String
  group : String
  md5 : Option String := none
  content : Option String := none
deriving Repr, DecidableEq

/-- Model of `_formatKey` (`diamond_env.js` lines 377–379). -/
def formatKey (unit dataId group : String) : String :=
  dataId ++ "@" ++ group ++ "@" ++ unit

/-- Remove all entries with the given key (`Map#delete`). -/
def eraseKey {α : Type} (m : List (String × α)) (k : String) :
    List (String × α) :=
  m.filter (fun p => p.1 ≠ k)

theorem lookup_eraseKey {α : Type} (m : List (String × α)) (k : String) :
    (eraseKey m k).lookup k = none := by
  induction m with
  | nil => rfl
  | cons hd tl ih =>
    by_cases h : hd.1 = k
    · simpa [eraseKey, h] using ih
    · have hbeq : (k == hd.1) = false := beq_false_of_ne (fun hh => h hh.symm)
      simpa [eraseKey, h, List.lookup, hbeq] using ih

/-- The body of the `_syncConfigs` result loop for one fetched entry
(`diamond_env.js` lines 141–167): look up the subscription (discard silently
when missing), report `DiamondSyncConfigError` on a failed fetch, and
otherwise update `md5`/`content` and emit exactly when the fresh MD5 differs
from the stored one.  `md5f` stands for `utils.getMD5String`; the returned
triple is (subscriptions, deferred emissions `(key, content)`, reported error
names). -/
def syncStep (md5f : Option String → String)
    (subs : List (String × SubItem)) (key : String)
    (result : Except JsError (Option String)) :
    List (String × SubItem) × List (String × Option String) × List String :=
  match subs.lookup key with
  | none => (subs, [], [])
  | some item =>
    match result with
    | .error _ => (subs, [], ["DiamondSyncConfigError"])
    | .ok content =>
      let md5 := md5f content
      if item.md5 = some md5 then (subs, [], [])
      else
        (setAssoc subs key { item with md5 := some md5, content := content },
          [(key, content)], [])

/-- Model of `_syncConfigs` (`diamond_env.js` lines 138–168) over the list of per-key
fetch results, folding `syncStep` in order. -/
def syncConfigs (md5f : Option String → String)
    (subs : List (String × SubItem))
    (results : List (String × Except JsError (Option String))) :
    List (String × SubItem) × List (String × Option String) × List String :=
  match results with
  | [] => (subs, [], [])
  | (key, r) :: rest =>
    let (subs', ems, errs) := syncStep md5f subs key r
    let (subs'', ems', errs') := syncConfigs md5f subs' rest
    (subs'', ems ++ ems', errs ++ errs')

/-- C1: for a subscribed key, a fetch whose MD5 equals the stored `md5` leaves
the subscription unchanged and emits nothing; a fetch whose MD5 differs
updates `md5` and `content` and emits the content exactly once (as a deferred
emission) for that key; hence two successive polls that observe the same
content emit exactly once in total. -/
theorem syncConfigs_md5_debounce (md5f : Option String → String)
    (subs : List (String × SubItem)) (key : String) (item : SubItem)
    (content : Option String) (hitem : subs.lookup key = some item) :
    (item.md5 = some (md5f content) →
      syncStep md5f subs key (.ok content) = (subs, [], [])) ∧
    (item.md5 ≠ some (md5f content) →
      syncStep md5f subs key (.ok content)
        = (setAssoc subs key
            { item with md5 := some (md5f content), content := content },
          [(key, content)], [])) ∧
    ((syncStep md5f (syncStep md5f subs key (.ok content)).1 key
        (.ok content)).2.1 = []) := by
  refine ⟨fun heq => ?_, fun hne => ?_, ?_⟩
  · simp [syncStep, hitem, heq]
  · simp [syncStep, hitem, hne]
  · by_cases heq : item.md5 = some (md5f content)
    · simp [syncStep, hitem, heq]
    · simp only [syncStep, hitem, heq]
      simp [syncStep, lookup_setAssoc, heq]

theorem syncConfigs_md5_debounce_witness :
    (syncStep (fun c => joinElem c ++ "#")
        (syncStep (fun c => joinElem c ++ "#")
          [("d@g@u", { dataId := "d", group := "g" })] "d@g@u"
          (.ok (some "v1"))).1
        "d@g@u" (.ok (some "v1"))).2.1 = [] :=
  (syncConfigs_md5_debounce (fun c => joinElem c ++ "#")
      [("d@g@u", { dataId := "d", group := "g" })] "d@g@u"
      { dataId := "d", group := "g" } (some "v1") rfl).2.2

/-- The listener registry and subscription set of one `DiamondEnv`; listeners
are identified by numbers. -/
structure EnvState where
  listeners : List (String × List Nat)
  subscriptions : List (String × SubItem)
deriving Repr, DecidableEq

/-- Removal behaviour of `EventEmitter#removeListener`: it removes the most recently added matching
listener. -/
def removeLastOcc (l : List Nat) (x : Nat) : List Nat :=
  (l.reverse.erase x).reverse

/-- The listeners an `emit(key, …)` would reach. -/
def deliverTargets (st : EnvState) (key : String) : List Nat :=
  (st.listeners.lookup key).getD []

/-- Model of `unSubscribe` (`diamond_env.js` lines 351–363): remove the given listener
(or all of them), then drop the subscription from the polling set when no
listener for the key remains. -/
def unSubscribe (st : EnvState) (key : String) (listener : Option Nat) :
    EnvState :=
  let ls := (st.listeners.lookup key).getD []
  let ls' := match listener with
    | some l => removeLastOcc ls l
    | none => []
  let subs' :=
    if ls'.isEmpty then eraseKey st.subscriptions key else st.subscriptions
  { listeners := setAssoc st.listeners key ls', subscriptions := subs' }

/-- C9: when `unSubscribe` removes the last listener for a key, the
subscription is gone from the polling set, an emission for the key reaches no
listener, and a mid-flight `_syncConfigs` result for the key is discarded
silently (no state change, no emission, no error). -/
theorem unSubscribe_atomicity (st : EnvState) (key : String)
    (listener : Option Nat)
    (hlast : deliverTargets (unSubscribe st key listener) key = []) :
    (unSubscribe st key listener).subscriptions.lookup key = none ∧
    deliverTargets (unSubscribe st key listener) key = [] ∧
    (∀ (md5f : Option String → String)
        (r : Except JsError (Option String)),
      syncStep md5f (unSubscribe st key listener).subscriptions key r
        = ((unSubscribe st key listener).subscriptions, [], [])) := by
  cases listener with
  | none =>
    have hsubs : (unSubscribe st key none).subscriptions
        = eraseKey st.subscriptions key := by
      simp [unSubscribe]
    refine ⟨?_, hlast, ?_⟩
    · rw [hsubs]
      exact lookup_eraseKey st.subscriptions key
    · intro md5f r
      rw [hsubs]
      simp [syncStep, lookup_eraseKey]
  | some l =>
    have hls : deliverTargets (unSubscribe st key (some l)) key
        = removeLastOcc ((st.listeners.lookup key).getD []) l := by
      simp [deliverTargets, unSubscribe, lookup_setAssoc]
    rw [hls] at hlast
    have hempty : (removeLastOcc ((st.listeners.lookup key).getD []) l).isEmpty
        = true := by
      rw [hlast]
      rfl
    have hsubs : (unSubscribe st key (some l)).subscriptions
        = eraseKey st.subscriptions key := by
      simp [unSubscribe, hempty]
    refine ⟨?_, ?_, ?_⟩
    · rw [hsubs]
      exact lookup_eraseKey st.subscriptions key
    · rw [hls, hlast]
    · intro md5f r
      rw [hsubs]
      simp [syncStep, lookup_eraseKey]

theorem unSubscribe_atomicity_witness :
    (unSubscribe
        { listeners := [("d@g@u", [7])],
          subscriptions := [("d@g@u", { dataId := "d", group := "g" })] }
        "d@g@u" (some 7)).subscriptions.lookup "d@g@u" = none :=
  (unSubscribe_atomicity
      { listeners := [("d@g@u", [7])],
        subscriptions := [("d@g@u", { dataId := "d", group := "g" })] }
      "d@g@u" (some 7) (by decide)).1

/-! ## Probe request body (`diamond_env.js` `_checkServerConfigInfo`,
lines 285–314) -/

theorem string_append_assoc (a b c : String) : a ++ b ++ c = a ++ (b ++ c) := by
  cases a with
  | mk da =>
    cases b with
    | mk db =>
      cases c with
      | mk dc =>
        show String.mk ((da ++ db) ++ dc) = String.mk (da ++ (db ++ dc))
        rw [List.append_assoc]

/-- Model of the array join with the empty separator: concatenate the
elements, coercing `null` to the empty string. -/
def jsJoin : List (Option String) → String
  | [] => ""
  | x :: xs => joinElem x ++ jsJoin xs

theorem jsJoin_append (a b : List (Option String)) :
    jsJoin (a ++ b) = jsJoin a ++ jsJoin b := by
  induction a with
  | nil => simp [jsJoin]
  | cons x xs ih => simp [jsJoin, ih, string_append_assoc]

/-- The elements pushed onto `probeUpdate` for one subscription
(`diamond_env.js` lines 294–304). -/
def probeItem (tenant : Option String) (s : SubItem) : List (Option String) :=
  [some s.dataId, some WORD_SEPARATOR, some s.group, some WORD_SEPARATOR] ++
    (if jsTruthy tenant then
      [s.md5, some WORD_SEPARATOR, tenant, some LINE_SEPARATOR]
    else [s.md5, some LINE_SEPARATOR])

/-- The `Probe-Modify-Request` body: the pushed elements over the subscription
set in iteration order, joined with the empty separator. -/
def probeUpdateString (tenant : Option String) (subs : List SubItem) : String :=
  jsJoin (subs.flatMap (probeItem tenant))

/-- The probe body as the claim words it: per subscription, `dataId`,
`WORD_SEP`, `group`, `WORD_SEP`, then `md5`, `WORD_SEP`, `tenant`, `LINE_SEP`
when a tenant is configured, else `md5`, `LINE_SEP`; all concatenated in
iteration order. -/
def probeBodySpec (tenant : Option String) : List SubItem → String
  | [] => ""
  | s :: rest =>
    s.dataId ++ WORD_SEPARATOR ++ s.group ++ WORD_SEPARATOR ++
      (if jsTruthy tenant then
        joinElem s.md5 ++ WORD_SEPARATOR ++ joinElem tenant ++ LINE_SEPARATOR
      else joinElem s.md5 ++ LINE_SEPARATOR) ++ probeBodySpec tenant rest

/-- C6: the probe request body equals, for every subscription set in iteration
order, the concatenation `dataId · WORD_SEP · group · WORD_SEP ·`
(`md5 · WORD_SEP · tenant · LINE_SEP` when a tenant is configured, else
`md5 · LINE_SEP`). -/
theorem probe_body_shape (tenant : Option String) (subs : List SubItem) :
    probeUpdateString tenant subs = probeBodySpec tenant subs := by
  induction subs with
  | nil => rfl
  | cons s rest ih =>
    simp only [probeUpdateString, List.flatMap_cons, jsJoin_append] at *
    by_cases ht : jsTruthy tenant = true
    · simp [probeItem, jsJoin, probeBodySpec, ht, ih, string_append_assoc,
        joinElem]
    · simp only [Bool.not_eq_true] at ht
      simp [probeItem, jsJoin, probeBodySpec, ht, ih, string_append_assoc,
        joinElem]

/-! ## `_fetchServerList` (`server_list_mgr.js` lines 156–202) -/

/-- Model of `_formatKey` (`server_list_mgr.js` lines 204–206). -/
def formatServerListKey (unit : String) : String := "server_list/" ++ unit

/-- Host-line splitting (`server_list_mgr.js` line 166): split the body on
newlines, trim each line and drop the empty ones. -/
def splitHosts (data : String) : List String :=
  ((data.splitOn "\n").map (fun h => h.trim)).filter (fun h => h ≠ "")

/-- Whether the try block of `_fetchServerList` fails: a transport/non-200
error from `_request`, or a fetched body whose host list is empty (which
raises `DiamondServerHostEmptyError` inside the try). -/
def fetchFailed : Except JsError String → Bool
  | .error _ => true
  | .ok data => (splitHosts data).length = 0

/-- The observable outcome of one `_fetchServerList` call. -/
structure FetchOutcome where
  result : Option ServerData
  cache : List (String × Option ServerData)
  reads : List String
  saves : List (String × String)
  deletes : List String
  errors : List String
deriving Repr, DecidableEq

/-- The catch block of `_fetchServerList` (`server_list_mgr.js` lines
176–190): report the error, read the snapshot, and when it holds a truthy
value try to JSON-parse it; on parse failure delete the snapshot and report
`ServerListSnapShotJSONParseError`.  Returns (hosts obtained, keys read, keys
deleted, error names reported). -/
def fetchCatch (parse : String → Option (List String)) (key : String)
    (snapVal : Option String) (ename : String) :
    Option (List String) × List String × List String × List String :=
  if jsTruthy snapVal then
    match parse (snapVal.getD "") with
    | some hs => (some hs, [key], [], [ename])
    | none => (none, [key], [key], [ename, "ServerListSnapShotJSONParseError"])
  else (none, [key], [], [ename])

/-- Model of `_fetchServerList` (`server_list_mgr.js` lines 156–202) given the
`_request` outcome `fetchRes`, the snapshot content `snapVal`, and the cache.
`stringify`/`parse` stand for `JSON.stringify`/`JSON.parse` on host lists and
`randFn` for `utility.random`. -/
def fetchServerList (stringify : List String → String)
    (parse : String → Option (List String)) (randFn : Nat → Nat)
    (unit : String) (fetchRes : Except JsError String) (snapVal : Option String)
    (cache : List (String × Option ServerData)) : FetchOutcome :=
  let key := formatServerListKey unit
  let step : Option (List String) × List String × List (String × String)
      × List String × List String :=
    match fetchRes with
    | .ok data =>
      let hosts := splitHosts data
      if hosts.length = 0 then
        let (h, r, d, e) := fetchCatch parse key snapVal
          "DiamondServerHostEmptyError"
        (h, r, [], d, e)
      else (some hosts, [], [(key, stringify hosts)], [], [])
    | .error e0 =>
      let (h, r, d, e) := fetchCatch parse key snapVal e0.name
      (h, r, [], d, e)
  let (hostsOpt, reads, saves, deletes, errors) := step
  match hostsOpt with
  | none =>
    { result := none, cache := setAssoc cache unit none, reads := reads,
      saves := saves, deletes := deletes, errors := errors }
  | some hosts =>
    if hosts.length = 0 then
      { result := none, cache := setAssoc cache unit none, reads := reads,
        saves := saves, deletes := deletes, errors := errors }
    else
      let sd : ServerData := ⟨hosts, randFn hosts.length⟩
      { result := some sd, cache := setAssoc cache unit (some sd),
        reads := reads, saves := saves, deletes := deletes, errors := errors }

/-- C7: when the discovery fetch fails (transport error, non-200 status or
empty host list), `_fetchServerList` falls back to the snapshot under
`server_list/<unit>`; if that snapshot holds a value whose JSON does not
parse, the snapshot key is deleted, `ServerListSnapShotJSONParseError` is
reported, the cache entry is set to `null` (not the corrupt data) and `null`
is returned; and when no host list is obtained from either source (no truthy
snapshot, or a snapshot parsing to an empty list) the cache entry is set to
`null` and `null` is returned. -/
theorem fetchServerList_fallback (stringify : List String → String)
    (parse : String → Option (List String)) (randFn : Nat → Nat)
    (unit : String) (fetchRes : Except JsError String) (snapVal : Option String)
    (cache : List (String × Option ServerData)) :
    (fetchFailed fetchRes = true →
      (fetchServerList stringify parse randFn unit fetchRes snapVal cache).reads
        = [formatServerListKey unit]) ∧
    (fetchFailed fetchRes = true → jsTruthy snapVal = true →
      parse (snapVal.getD "") = none →
      (fetchServerList stringify parse randFn unit fetchRes snapVal cache).deletes
          = [formatServerListKey unit]
      ∧ "ServerListSnapShotJSONParseError"
          ∈ (fetchServerList stringify parse randFn unit fetchRes snapVal
              cache).errors
      ∧ (fetchServerList stringify parse randFn unit fetchRes snapVal
          cache).result = none
      ∧ (fetchServerList stringify parse randFn unit fetchRes snapVal
          cache).cache.lookup unit = some none) ∧
    (fetchFailed fetchRes = true → jsTruthy snapVal = false →
      (fetchServerList stringify parse randFn unit fetchRes snapVal
          cache).result = none
      ∧ (fetchServerList stringify parse randFn unit fetchRes snapVal
          cache).cache.lookup unit = some none) ∧
    (fetchFailed fetchRes = true → jsTruthy snapVal = true →
      parse (snapVal.getD "") = some [] →
      (fetchServerList stringify parse randFn unit fetchRes snapVal
          cache).result = none
      ∧ (fetchServerList stringify parse randFn unit fetchRes snapVal
          cache).cache.lookup unit = some none) := by
  refine ⟨?_, ?_, ?_, ?_⟩
  · intro hfail
    cases fetchRes with
    | error e0 =>
      simp only [fetchServerList, fetchCatch]
      by_cases ht : jsTruthy snapVal = true
      · cases hp : parse (snapVal.getD "") with
        | none => simp [ht, hp]
        | some hs =>
          simp only [ht, hp, if_pos]
          split <;> rfl
      · simp only [Bool.not_eq_true] at ht
        simp [ht]
    | ok data =>
      have hempty : (splitHosts data).length = 0 := by
        simpa [fetchFailed] using hfail
      simp only [fetchServerList, fetchCatch, hempty, if_pos]
      by_cases ht : jsTruthy snapVal = true
      · cases hp : parse (snapVal.getD "") with
        | none => simp [ht, hp]
        | some hs =>
          simp only [ht, hp, if_pos]
          split <;> rfl
      · simp only [Bool.not_eq_true] at ht
        simp [ht]
  · intro hfail ht hp
    cases fetchRes with
    | error e0 =>
      simp [fetchServerList, fetchCatch, ht, hp, lookup_setAssoc]
    | ok data =>
      have hempty : (splitHosts data).length = 0 := by
        simpa [fetchFailed] using hfail
      simp [fetchServerList, fetchCatch, hempty, ht, hp, lookup_setAssoc]
  · intro hfail ht
    have ht' : jsTruthy snapVal ≠ true := by simp [ht]
    cases fetchRes with
    | error e0 =>
      simp [fetchServerList, fetchCatch, ht', lookup_setAssoc]
    | ok data =>
      have hempty : (splitHosts data).length = 0 := by
        simpa [fetchFailed] using hfail
      simp [fetchServerList, fetchCatch, hempty, ht', lookup_setAssoc]
  · intro hfail ht hp
    cases fetchRes with
    | error e0 =>
      simp [fetchServerList, fetchCatch, ht, hp, lookup_setAssoc]
    | ok data =>
      have hempty : (splitHosts data).length = 0 := by
        simpa [fetchFailed] using hfail
      simp [fetchServerList, fetchCatch, hempty, ht, hp, lookup_setAssoc]

theorem fetchServerList_fallback_witness :
    (fetchServerList (fun _ => "") (fun _ => none) id "u"
        (Except.error { name := "E" }) (some "garbage") []).deletes
      = [formatServerListKey "u"] :=
  ((fetchServerList_fallback (fun _ => "") (fun _ => none) id "u"
      (Except.error { name := "E" }) (some "garbage") []).2.1
    (by decide) (by decide) rfl).1

end Acm
